import Mathlib

/-!
Verification of the RatAR augmented-reality demo (pose-to-render pipeline).

Scalars are modelled as exact rationals (the C++ uses float/double; the
claims under scrutiny are about exact algebraic structure, not rounding).
glm matrices are column-major: the C++ write `m[c][r] = x` stores the value
at mathematical entry (row r, column c).  All matrices below are in the
mathematical (row, column) convention, and every translated write is
annotated with the glm index it came from.
-/

namespace RatAR

abbrev Vec3 := Fin 3 → ℚ

abbrev Vec4 := Fin 4 → ℚ

abbrev Mat3 := Fin 3 → Fin 3 → ℚ

abbrev Mat4 := Fin 4 → Fin 4 → ℚ

def mat4Mul (A B : Mat4) : Mat4 := fun i j =>
  A i 0 * B 0 j + A i 1 * B 1 j + A i 2 * B 2 j + A i 3 * B 3 j

def mulVec4 (A : Mat4) (v : Vec4) : Vec4 := fun i =>
  A i 0 * v 0 + A i 1 * v 1 + A i 2 * v 2 + A i 3 * v 3

def mat4Id : Mat4 := fun i j => if i = j then 1 else 0

def mat4Zero : Mat4 := fun _ _ => 0

def mat4AllOnes : Mat4 := fun _ _ => 1

def mat3Id : Mat3 := fun i j => if i = j then 1 else 0

def vec3Zero : Vec3 := fun _ => 0

/-- One elementwise store `m[row][col] := val` (already in mathematical
row/column order). -/
structure CellWrite where
  row : Fin 4
  col : Fin 4
  val : ℚ

def mat4Set (m : Mat4) (r c : Fin 4) (v : ℚ) : Mat4 :=
  fun i j => if i = r ∧ j = c then v else m i j

/-- Applies a sequence of elementwise stores, in order, to a start matrix.
This mirrors the assignment loops of the C++ renderers. -/
def writeCells : Mat4 → List CellWrite → Mat4
  | m, [] => m
  | m, w :: ws => writeCells (mat4Set m w.row w.col w.val) ws

/-- The fixed basis-change matrix `cv_to_gl` of
`ARObjectRenderer::buildViewMatrix` (src/include/ARObjectRenderer.h:412-417,
identically src/include/ARCubeRenderer.h:421-426 and src/unnamed/part_000:
423-428): `glm::mat4(1,0,0,0, 0,-1,0,0, 0,0,-1,0, 0,0,0,1)`, i.e.
diag(1, -1, -1, 1) (the column-major constructor makes no difference for a
diagonal matrix). -/
def cvToGl : Mat4 := fun i j => if i = j then ![(1 : ℚ), -1, -1, 1] i else 0

/-- The matrix `view_matrix` of `ARObjectRenderer::buildViewMatrix`
(src/include/ARObjectRenderer.h:402-410) just before the basis change:
it starts as `glm::mat4(1.0f)` (identity) and receives
`view_matrix[j][i] = rot_mat.at(i,j)` for i,j in 0..2 — glm column j,
row i, i.e. mathematical entry (i, j) := R i j — followed by
`view_matrix[3][k] = tvec[k]` — glm column 3, row k, i.e. mathematical
entry (k, 3) := t k.  `R` is the 3×3 output of the external
`cv::Rodrigues(rvec, rot_mat)` call. -/
def assembledPose (R : Mat3) (t : Vec3) : Mat4 :=
  writeCells mat4Id
    [⟨0, 0, R 0 0⟩, ⟨0, 1, R 0 1⟩, ⟨0, 2, R 0 2⟩,
     ⟨1, 0, R 1 0⟩, ⟨1, 1, R 1 1⟩, ⟨1, 2, R 1 2⟩,
     ⟨2, 0, R 2 0⟩, ⟨2, 1, R 2 1⟩, ⟨2, 2, R 2 2⟩,
     ⟨0, 3, t 0⟩, ⟨1, 3, t 1⟩, ⟨2, 3, t 2⟩]

/-- `ARObjectRenderer::buildViewMatrix`
(src/include/ARObjectRenderer.h:398-420, identically
src/include/ARCubeRenderer.h:407-429), parameterised by the rotation
matrix `R` that the external `cv::Rodrigues` call produced from `rvec`.
The function returns `cv_to_gl * view_matrix`. -/
def buildViewMatrix (R : Mat3) (t : Vec3) : Mat4 :=
  mat4Mul cvToGl (assembledPose R t)

/-- The 4×4 pose matrix `M` exactly as the spec describes it (§4.1 step 2
and claim C1): `R` embedded in the upper-left 3×3, `t` in the translation
column, bottom row (0,0,0,1). -/
def poseBlock (R : Mat3) (t : Vec3) : Mat4 := fun i j =>
  if hi : (i : ℕ) < 3 then
    if hj : (j : ℕ) < 3 then R ⟨i, hi⟩ ⟨j, hj⟩ else t ⟨i, hi⟩
  else if (j : ℕ) < 3 then 0 else 1

/-- The skew-symmetric cross-product matrix `[k]ₓ` of the Rodrigues
formula. -/
def crossMat (k : Vec3) : Mat3 := fun i =>
  ![![0, -(k 2), k 1], ![k 2, 0, -(k 0)], ![-(k 1), k 0, 0]] i

/-- Modelled from the spec: `cv::Rodrigues` is an external OpenCV routine
(not part of this repository).  Spec §4.1 step 1 gives the exponential-map
formula `R = I·cosθ + (1-cosθ)·k·kᵀ + sinθ·[k]ₓ` for θ = ‖r‖ and unit axis
k = r/θ, and `R = I` when θ ≈ 0.  Here the formula is taken with
c = cos θ and s = sin θ as rational parameters, so that the concrete
rotations the claims use (θ = 0 and θ = 90°) are exact. -/
def rodriguesFormula (c s : ℚ) (k : Vec3) : Mat3 := fun i j =>
  c * mat3Id i j + (1 - c) * (k i * k j) + s * crossMat k i j

/-- The rotation matrix for rvec = (π/2, 0, 0): θ = π/2, so cos θ = 0,
sin θ = 1, axis k = (1,0,0).  Evaluates to the 90° rotation about the
camera X axis. -/
def rx90 : Mat3 := rodriguesFormula 0 1 ![1, 0, 0]

/-- The inverse of `cv_to_gl * M` at the pose (rx90, 0): concretely the
transpose of its rotation block (the matrix is orthonormal with zero
translation).  Certified as the inverse inside the C1 counterexample. -/
def claimedInverseRx90 : Mat4 := fun i =>
  ![![1, 0, 0, 0], ![0, 0, -1, 0], ![0, 1, 0, 0], ![0, 0, 0, 1]] i

/-- `ARCubeRenderer::buildViewMatrix` of src/unnamed/part_000:402-431
before the basis change.  Unlike the other two variants it declares
`glm::mat4 view_matrix;` WITHOUT an initialiser, so the matrix starts
with unspecified contents, modelled by the explicit `init` parameter.
The writes are the same rotation loop and translation column, plus
`view_matrix[3][3] = 1.0f` (glm column 3, row 3 — mathematical entry
(3,3)).  The glm entries [0][3], [1][3], [2][3] — mathematical bottom-row
entries (3,0), (3,1), (3,2) — are never written. -/
def cubeAssembledPose (init : Mat4) (R : Mat3) (t : Vec3) : Mat4 :=
  writeCells init
    [⟨0, 0, R 0 0⟩, ⟨0, 1, R 0 1⟩, ⟨0, 2, R 0 2⟩,
     ⟨1, 0, R 1 0⟩, ⟨1, 1, R 1 1⟩, ⟨1, 2, R 1 2⟩,
     ⟨2, 0, R 2 0⟩, ⟨2, 1, R 2 1⟩, ⟨2, 2, R 2 2⟩,
     ⟨0, 3, t 0⟩, ⟨1, 3, t 1⟩, ⟨2, 3, t 2⟩,
     ⟨3, 3, 1⟩]

/-- `ARCubeRenderer::buildViewMatrix` (src/unnamed/part_000:402-431):
returns `cv_to_gl * view_matrix` over the partly-uninitialised
`view_matrix`. -/
def cubeBuildViewMatrix (init : Mat4) (R : Mat3) (t : Vec3) : Mat4 :=
  mat4Mul cvToGl (cubeAssembledPose init R t)

/-- `ARObjectRenderer::buildProjectionMatrix`
(src/include/ARObjectRenderer.h:381-396, identically
src/include/ARCubeRenderer.h:390-405 and src/unnamed/part_000:384-399).
`fx = cameraMatrix(0,0)`, `fy = cameraMatrix(1,1)`, `cx = cameraMatrix(0,2)`,
`cy = cameraMatrix(1,2)`.  The matrix starts as `glm::mat4(0.0f)` and the
C++ writes translate (glm `[c][r]` = mathematical (r, c)):
`projection[0][0]` → (0,0), `projection[1][1]` → (1,1),
`projection[2][0]` → (0,2), `projection[2][1]` → (1,2),
`projection[2][2]` → (2,2), `projection[2][3]` → (3,2),
`projection[3][2]` → (2,3). -/
def buildProjectionMatrix (fx fy cx cy w h near far : ℚ) : Mat4 :=
  writeCells mat4Zero
    [⟨0, 0, 2 * fx / w⟩, ⟨1, 1, 2 * fy / h⟩,
     ⟨0, 2, 1 - 2 * cx / w⟩, ⟨1, 2, 2 * cy / h - 1⟩,
     ⟨2, 2, -(far + near) / (far - near)⟩, ⟨3, 2, -1⟩,
     ⟨2, 3, -(2 * far * near) / (far - near)⟩]

/-- Closed form of the projection matrix the write sequence produces. -/
def projClosedForm (fx fy cx cy w h near far : ℚ) : Mat4 := fun i j =>
  if (i : ℕ) = 0 then
    if (j : ℕ) = 0 then 2 * fx / w else if (j : ℕ) = 2 then 1 - 2 * cx / w else 0
  else if (i : ℕ) = 1 then
    if (j : ℕ) = 1 then 2 * fy / h else if (j : ℕ) = 2 then 2 * cy / h - 1 else 0
  else if (i : ℕ) = 2 then
    if (j : ℕ) = 2 then -(far + near) / (far - near)
    else if (j : ℕ) = 3 then -(2 * far * near) / (far - near) else 0
  else if (j : ℕ) = 2 then -1 else 0

/-- The projection matrix at the intrinsics of the testable property:
fx = fy = 500, cx = 320, cy = 240, viewport 640×480, and the near/far pair
the renderers pass at the call site (`0.1f`, `100.0f`,
src/include/ARObjectRenderer.h:222). -/
def proj640x480 : Mat4 := buildProjectionMatrix 500 500 320 240 640 480 (1 / 10) 100

/-- Normalised device coordinate i of a clip-space vector: the perspective
divide by the clip w component. -/
def ndc (P : Mat4) (v : Vec4) (i : Fin 4) : ℚ := mulVec4 P v i / mulVec4 P v 3

/-- The error taxonomy entry of spec §7 relevant to the intrinsics check. -/
inductive ARError where
  | InvalidIntrinsics

/-- Modelled from the spec: the validating coordinate transform of
§4.1 ("Failure: if fx, fy, w, h are non-positive, fails with
InvalidIntrinsics").  This definition follows the spec's words and exists
only for the refinement comparison of claim C7; the source contains no
such check. -/
def buildProjectionMatrixChecked (fx fy cx cy w h near far : ℚ) :
    Except ARError Mat4 :=
  if fx ≤ 0 ∨ fy ≤ 0 ∨ w ≤ 0 ∨ h ≤ 0 then Except.error ARError.InvalidIntrinsics
  else Except.ok (buildProjectionMatrix fx fy cx cy w h near far)

/-- The animation state of `ARObjectRenderer`
(src/include/ARObjectRenderer.h:284-285): the fields `animationActive`
and `animationStartTime`.  Time is an exact rational (glfwGetTime values). -/
structure AnimState where
  active : Bool
  startTime : ℚ

/-- `animationDuration = 1.0f` (src/include/ARObjectRenderer.h:286). -/
def animationDuration : ℚ := 1

/-- `animationHeight = 0.05f` (src/include/ARObjectRenderer.h:287). -/
def animationHeight : ℚ := 1 / 20

/-- `ARObjectRenderer::triggerAnimation`
(src/include/ARObjectRenderer.h:255-260): only if the animation is not
active, set it active and record `glfwGetTime()` (the `now` argument) as
the start time. -/
def triggerAnimation (now : ℚ) (s : AnimState) : AnimState :=
  if s.active then s else { active := true, startTime := now }

/-- `ARObjectRenderer::getAnimationTransform`
(src/include/ARObjectRenderer.h:288-300).  The C++ returns a glm matrix —
`glm::translate(I, (0, height, 0))` in the active-and-running branch, the
identity otherwise — and mutates `animationActive`.  Modelled as the
updated state paired with the Y-translation component of the returned
matrix (`height`; the identity matrix corresponds to offset 0). -/
def getAnimationTransform (now : ℚ) (s : AnimState) : AnimState × ℚ :=
  if s.active then
    let elapsedTime := now - s.startTime
    if elapsedTime < animationDuration then
      (s, animationHeight * (elapsedTime / animationDuration))
    else
      ({ s with active := false }, 0)
  else (s, 0)

/-- The object-draw condition of `ARObjectRenderer::render`
(src/include/ARObjectRenderer.h:219): `loadedModel.vao != 0 && tvec[2] > 0`. -/
def renderDrawsObject (vao : ℕ) (tvec : Vec3) : Bool :=
  decide (vao ≠ 0) && decide ((0 : ℚ) < tvec 2)

/-- The per-frame outputs of the application pipeline that the claims
observe: whether the background quad and the 3D object are drawn
this frame, and the animation state after the gesture-trigger step. -/
structure FrameOutput where
  drawBackground : Bool
  drawObject : Bool
  animAfterTrigger : AnimState

/-- `AugmentedRealityApp::detectAndRender` (src/src/main.cc:481-510,
second program) composed with `ARObjectRenderer::render`
(src/include/ARObjectRenderer.h:210-245).  `markerFound` is whether the
external detector returned a non-empty marker list; `detTvec` is the
translation `cv::solvePnP` produced for the first marker; `gesture` is
the boolean the external hand-gesture detector returns on this frame.
The code initialises `tvec = (0,0,0)` and overwrites it only when a
marker was found; it calls `renderer.triggerAnimation()` under
`markerFound && detectHandGesture(frame)`; `renderer.render` always
draws the background quad and draws the object under the
`renderDrawsObject` condition. -/
def detectAndRender (markerFound : Bool) (detTvec : Vec3) (gesture : Bool)
    (vao : ℕ) (anim : AnimState) (now : ℚ) : FrameOutput :=
  let tvec : Vec3 := if markerFound then detTvec else vec3Zero
  let anim2 := if markerFound && gesture then triggerAnimation now anim else anim
  { drawBackground := true
    drawObject := renderDrawsObject vao tvec
    animAfterTrigger := anim2 }

/-- The resource-handle state of `ARObjectRenderer::cleanup`
(src/include/ARObjectRenderer.h:261-275, identically
src/unnamed/part_000:218-231) relevant to the window handle: `window`
records whether the stored `GLFWwindow*` member is non-null, and
`windowDestroyCalls` counts the `glfwDestroyWindow` invocations issued on
that stored pointer. -/
structure RendererState where
  window : Bool
  windowDestroyCalls : ℕ

/-- `ARObjectRenderer::cleanup`: executes `if (window)
{ glfwDestroyWindow(window); }` and never assigns `window = nullptr`
afterwards, so the member keeps its value across calls. -/
def cleanup (s : RendererState) : RendererState :=
  if s.window then { s with windowDestroyCalls := s.windowDestroyCalls + 1 }
  else s

/-- A convenient not-yet-triggered animation state. -/
def idleState : AnimState := { active := false, startTime := 0 }

/-- A convenient animation state triggered at time 0. -/
def activeState : AnimState := { active := true, startTime := 0 }

end RatAR

namespace RatAR

/-- Claim C1 (counterexample): at rvec = (π/2,0,0) (Rodrigues output `rx90`)
and tvec = 0, `claimedInverseRx90` is certified (two-sided) as the inverse
of `cv_to_gl * M`, yet the view matrix the code returns differs from it:
the code returns `cv_to_gl * M` itself, never inverting. -/
theorem view_not_pose_inverse_cex :
    mat4Mul claimedInverseRx90 (mat4Mul cvToGl (poseBlock rx90 vec3Zero)) = mat4Id
    ∧ mat4Mul (mat4Mul cvToGl (poseBlock rx90 vec3Zero)) claimedInverseRx90 = mat4Id
    ∧ buildViewMatrix rx90 vec3Zero ≠ claimedInverseRx90 := by
  refine ⟨?_, ?_, ?_⟩
  · funext i j
    fin_cases i <;> fin_cases j <;>
      simp +decide [mat4Mul, claimedInverseRx90, cvToGl, poseBlock, rx90,
        rodriguesFormula, mat3Id, crossMat, vec3Zero, mat4Id,
        Matrix.vecHead, Matrix.vecTail]
  · funext i j
    fin_cases i <;> fin_cases j <;>
      simp +decide [mat4Mul, claimedInverseRx90, cvToGl, poseBlock, rx90,
        rodriguesFormula, mat3Id, crossMat, vec3Zero, mat4Id,
        Matrix.vecHead, Matrix.vecTail]
  · intro h
    have h12 := congrFun (congrFun h 1) 2
    simp +decide [buildViewMatrix, assembledPose, writeCells, mat4Set, mat4Id,
      mat4Mul, cvToGl, rx90, rodriguesFormula, mat3Id, crossMat, vec3Zero,
      claimedInverseRx90, Matrix.vecHead, Matrix.vecTail] at h12

/-- Claim C1 (amended): for every rotation matrix R (the external Rodrigues
output) and translation t, the view matrix the coordinate transform
produces equals `cv_to_gl * M` itself — the fixed basis-change
diag(1,-1,-1,1) times the pose matrix M (R in the upper-left 3×3, t in
the translation column) — with NO inversion applied. -/
theorem view_eq_basis_change_times_pose (R : Mat3) (t : Vec3) :
    buildViewMatrix R t = mat4Mul cvToGl (poseBlock R t) := by
  funext i j
  fin_cases i <;> fin_cases j <;>
    simp +decide [buildViewMatrix, assembledPose, writeCells, mat4Set, mat4Id,
      mat4Mul, cvToGl, poseBlock]

/-- Claim C2: for rotation vector r = 0 the Rodrigues formula has
cos θ = 1 and sin θ = 0 (whatever the axis k), giving R = I, and with
t = 0 the view matrix equals exactly the fixed basis-change matrix
diag(1,-1,-1,1). -/
theorem view_identity_pose_is_basis_change (k : Vec3) :
    buildViewMatrix (rodriguesFormula 1 0 k) vec3Zero = cvToGl := by
  funext i j
  fin_cases i <;> fin_cases j <;>
    simp +decide [buildViewMatrix, assembledPose, writeCells, mat4Set, mat4Id,
      mat4Mul, cvToGl, rodriguesFormula, mat3Id, vec3Zero]

/-- Claim C3: with intrinsics fx = fy = 500, cx = 320, cy = 240 and
viewport 640×480, the projection matrix maps every camera-space point
(0,0,z), z > 0, on the optical axis (taken through the basis change into
eye space) to NDC x = 0, y = 0 — the clip w there is nonzero, so the
divide is meaningful — and maps the point at depth z = near = 1/10
exactly to NDC z = -1. -/
theorem projection_principal_point_and_near_plane (z : ℚ) (hz : 0 < z) :
    mulVec4 proj640x480 (mulVec4 cvToGl ![0, 0, z, 1]) 3 ≠ 0
    ∧ ndc proj640x480 (mulVec4 cvToGl ![0, 0, z, 1]) 0 = 0
    ∧ ndc proj640x480 (mulVec4 cvToGl ![0, 0, z, 1]) 1 = 0
    ∧ ndc proj640x480 (mulVec4 cvToGl ![0, 0, 1 / 10, 1]) 2 = -1 := by
  refine ⟨?_, ?_, ?_, ?_⟩ <;>
    simp +decide [ndc, mulVec4, proj640x480, buildProjectionMatrix, writeCells,
      mat4Set, mat4Zero, cvToGl] <;> norm_num
  exact hz.ne'

/-- Witness for C3 at z = 1. -/
theorem projection_principal_point_and_near_plane_witness :
    (0 : ℚ) < 1
    ∧ (mulVec4 proj640x480 (mulVec4 cvToGl ![0, 0, 1, 1]) 3 ≠ 0
      ∧ ndc proj640x480 (mulVec4 cvToGl ![0, 0, 1, 1]) 0 = 0
      ∧ ndc proj640x480 (mulVec4 cvToGl ![0, 0, 1, 1]) 1 = 0
      ∧ ndc proj640x480 (mulVec4 cvToGl ![0, 0, 1 / 10, 1]) 2 = -1) :=
  ⟨by norm_num, projection_principal_point_and_near_plane 1 (by norm_num)⟩

/-- Claim C4: in the application pipeline, when a model is loaded
(vao ≠ 0) the 3D object is drawn exactly when a marker was detected this
frame AND the translation Z component is strictly positive; in
particular translation (0,0,-1/2) skips the object while the background
quad is drawn, and a detected marker at (0,0,1/2) takes the draw
branch. -/
theorem object_draw_iff_marker_and_front (markerFound gesture : Bool)
    (detTvec : Vec3) (vao : ℕ) (anim : AnimState) (now : ℚ)
    (hv : vao ≠ 0) :
    (detectAndRender markerFound detTvec gesture vao anim now).drawObject
      = (markerFound && decide ((0 : ℚ) < detTvec 2))
    ∧ (detectAndRender markerFound ![0, 0, -(1 / 2)] gesture vao anim now).drawObject = false
    ∧ (detectAndRender true ![0, 0, 1 / 2] gesture vao anim now).drawObject = true
    ∧ (detectAndRender markerFound detTvec gesture vao anim now).drawBackground = true := by
  cases markerFound <;>
    simp +decide [detectAndRender, renderDrawsObject, vec3Zero, hv]

/-- Witness for C4 with a loaded model (vao = 1), a detected marker and a
pose half a meter in front of the camera. -/
theorem object_draw_iff_marker_and_front_witness :
    (1 : ℕ) ≠ 0
    ∧ ((detectAndRender true ![0, 0, 1] true 1 idleState 0).drawObject
        = (true && decide ((0 : ℚ) < (![0, 0, 1] : Vec3) 2))
      ∧ (detectAndRender true ![0, 0, -(1 / 2)] true 1 idleState 0).drawObject = false
      ∧ (detectAndRender true ![0, 0, 1 / 2] true 1 idleState 0).drawObject = true
      ∧ (detectAndRender true ![0, 0, 1] true 1 idleState 0).drawBackground = true) :=
  ⟨by decide,
    object_draw_iff_marker_and_front true true ![0, 0, 1] 1 idleState 0 (by decide)⟩

/-- Claim C5 (counterexample): at elapsed time exactly equal to the
duration (start time 0, queried at time 1 = animationDuration) the code
returns offset 0 — not the peak height 1/20 — and flips the animation
inactive; the claimed value peak-height is nonzero, so the claim fails at
this input. -/
theorem animation_peak_never_reached_cex :
    (getAnimationTransform 1 activeState).2 = 0
    ∧ ((getAnimationTransform 1 activeState).1).active = false
    ∧ (0 : ℚ) ≠ animationHeight := by
  refine ⟨?_, ?_, by norm_num [animationHeight]⟩ <;>
    norm_num [getAnimationTransform, activeState, animationDuration]

/-- Claim C5 (amended): the offset is 0 before any trigger; while the
animation is active it equals peak·(elapsed/duration) — linear and
monotone in elapsed time — and stays strictly BELOW the peak height for
every elapsed time < duration; from elapsed time ≥ duration on (including
exactly duration) the offset is exactly 0 again and the animation
deactivates.  The peak height is approached but never attained. -/
theorem animation_offset_profile (s idle : AnimState) (n1 n2 n3 : ℚ)
    (hidle : idle.active = false) (hact : s.active = true)
    (h1 : s.startTime ≤ n1) (h12 : n1 ≤ n2)
    (h2 : n2 - s.startTime < animationDuration)
    (h3 : animationDuration ≤ n3 - s.startTime) :
    (getAnimationTransform n1 idle).2 = 0
    ∧ (getAnimationTransform n1 s).2
        = animationHeight * ((n1 - s.startTime) / animationDuration)
    ∧ (getAnimationTransform n1 s).2 ≤ (getAnimationTransform n2 s).2
    ∧ (getAnimationTransform n1 s).2 < animationHeight
    ∧ (getAnimationTransform n3 s).2 = 0
    ∧ ((getAnimationTransform n3 s).1).active = false := by
  simp only [animationDuration, animationHeight] at h2 h3 ⊢
  have e1lt : n1 - s.startTime < 1 := by linarith
  have e3ge : ¬(n3 - s.startTime < 1) := not_lt.mpr (by linarith)
  refine ⟨?_, ?_, ?_, ?_, ?_, ?_⟩ <;>
    simp [getAnimationTransform, hidle, hact, e1lt, h2, e3ge,
      animationDuration, animationHeight] <;>
    linarith

/-- Witness for C5 (amended): idle state, a state triggered at 0, queried
at times 1/4 and 1/2 (inside the window) and 2 (past the window). -/
theorem animation_offset_profile_witness :
    idleState.active = false
    ∧ activeState.active = true
    ∧ activeState.startTime ≤ 1 / 4
    ∧ (1 / 4 : ℚ) ≤ 1 / 2
    ∧ (1 / 2 : ℚ) - activeState.startTime < animationDuration
    ∧ animationDuration ≤ (2 : ℚ) - activeState.startTime
    ∧ ((getAnimationTransform (1 / 4) idleState).2 = 0
      ∧ (getAnimationTransform (1 / 4) activeState).2
          = animationHeight * ((1 / 4 - activeState.startTime) / animationDuration)
      ∧ (getAnimationTransform (1 / 4) activeState).2
          ≤ (getAnimationTransform (1 / 2) activeState).2
      ∧ (getAnimationTransform (1 / 4) activeState).2 < animationHeight
      ∧ (getAnimationTransform 2 activeState).2 = 0
      ∧ ((getAnimationTransform 2 activeState).1).active = false) :=
  ⟨rfl, rfl, by norm_num [activeState], by norm_num,
    by norm_num [activeState, animationDuration],
    by norm_num [activeState, animationDuration],
    animation_offset_profile activeState idleState (1 / 4) (1 / 2) 2 rfl rfl
      (by norm_num [activeState]) (by norm_num)
      (by norm_num [activeState, animationDuration])
      (by norm_num [activeState, animationDuration])⟩

/-- Claim C6: while the animation is active, calling trigger again is a
no-op — the whole state, in particular the stored start time, is
unchanged. -/
theorem trigger_midanimation_noop (s : AnimState) (now : ℚ)
    (h : s.active = true) : triggerAnimation now s = s := by
  simp [triggerAnimation, h]

/-- Witness for C6: re-triggering at time 7 a state triggered at time 0. -/
theorem trigger_midanimation_noop_witness :
    activeState.active = true ∧ triggerAnimation 7 activeState = activeState :=
  ⟨rfl, trigger_midanimation_noop activeState 7 rfl⟩

/-- Claim C7 (counterexample): at fx = -500 (non-positive focal length)
the spec-modelled checked transform fails with InvalidIntrinsics, but the
code's transform silently proceeds and returns a degenerate matrix whose
(0,0) X-scale entry is the negative value -25/16. -/
theorem projection_no_intrinsics_check_cex :
    buildProjectionMatrixChecked (-500) 500 320 240 640 480 (1 / 10) 100
      = Except.error ARError.InvalidIntrinsics
    ∧ buildProjectionMatrix (-500) 500 320 240 640 480 (1 / 10) 100 0 0
        = -(25 / 16)
    ∧ (-(25 / 16) : ℚ) < 0 := by
  refine ⟨?_, ?_, by norm_num⟩
  · norm_num [buildProjectionMatrixChecked]
  · simp +decide [buildProjectionMatrix, writeCells, mat4Set, mat4Zero]
    norm_num

/-- Claim C7 (amended): the code never validates the intrinsics — for
EVERY input, including non-positive fx, fy, w or h, buildProjectionMatrix
silently returns the assembled pinhole matrix (degenerate in those cases);
no InvalidIntrinsics failure path exists in the source. -/
theorem projection_total_closed_form (fx fy cx cy w h near far : ℚ) :
    buildProjectionMatrix fx fy cx cy w h near far
      = projClosedForm fx fy cx cy w h near far := by
  funext i j
  fin_cases i <;> fin_cases j <;>
    simp +decide [buildProjectionMatrix, writeCells, mat4Set, mat4Zero,
      projClosedForm]

/-- Claim C8 (counterexample): on a frame where the external gesture
detector returns true but no marker was found, the application loop does
NOT call trigger: the animation state is left unchanged, although a
trigger call would have activated it. -/
theorem gesture_without_marker_no_trigger_cex :
    (detectAndRender false vec3Zero true 1 idleState 5).animAfterTrigger = idleState
    ∧ triggerAnimation 5 idleState = { active := true, startTime := 5 }
    ∧ idleState ≠ { active := true, startTime := 5 } := by
  refine ⟨rfl, rfl, ?_⟩
  simp [idleState]

/-- Claim C8 (amended): on a frame where the external gesture detector
returns true, the application loop calls trigger exactly when a marker
was also found this frame — the call is guarded by
`markerFound && detectHandGesture(frame)`, not by the gesture boolean
alone. -/
theorem gesture_trigger_requires_marker (markerFound : Bool) (detTvec : Vec3)
    (vao : ℕ) (anim : AnimState) (now : ℚ) :
    (detectAndRender markerFound detTvec true vao anim now).animAfterTrigger
      = (if markerFound then triggerAnimation now anim else anim) := by
  cases markerFound <;> simp [detectAndRender]

/-- Claim C9: cleanup is NOT idempotent on the window handle.  Starting
from an initialised renderer (non-null window, no destroy issued yet), the
first cleanup destroys the window but leaves the stored pointer non-null,
so a second cleanup passes the `if (window)` guard again and issues a
second glfwDestroyWindow on the already-destroyed handle. -/
theorem cleanup_second_call_redestroys_window :
    (cleanup { window := true, windowDestroyCalls := 0 }).window = true
    ∧ (cleanup (cleanup { window := true, windowDestroyCalls := 0 })).windowDestroyCalls
        = 2 := by
  refine ⟨rfl, rfl⟩

/-- Claim C10: in the cube-renderer variant the returned view matrix
keeps the default-constructed matrix's bottom-row entries (glm [0][3],
[1][3], [2][3], mathematical (3,0), (3,1), (3,2)) — they are never
written — so the result depends on the unspecified initial contents: two
different initial matrices give two different view matrices for the same
rvec and tvec. -/
theorem cube_view_bottom_row_uninitialized (init : Mat4) (R : Mat3)
    (t : Vec3) (j : Fin 3) :
    cubeBuildViewMatrix init R t 3 j.castSucc = init 3 j.castSucc
    ∧ cubeBuildViewMatrix mat4Zero mat3Id vec3Zero
        ≠ cubeBuildViewMatrix mat4AllOnes mat3Id vec3Zero := by
  constructor
  · fin_cases j <;>
      simp +decide [cubeBuildViewMatrix, cubeAssembledPose, writeCells,
        mat4Set, mat4Mul, cvToGl]
  · intro h
    have h30 := congrFun (congrFun h 3) 0
    simp +decide [cubeBuildViewMatrix, cubeAssembledPose, writeCells,
      mat4Set, mat4Mul, cvToGl, mat4Zero, mat4AllOnes, mat3Id,
      vec3Zero] at h30

end RatAR
